import Mathlib

/-!
Verification development for the FutureSight metrics aggregation engine
(`src/data.rs`, `src/config.rs`).  The Rust source is shallowly embedded:
pure record updates model the in-place mutation of `SignetMetrics` inside
`collect_metrics`, the outcomes of the network calls of one poll cycle are
passed in explicitly as a `PollOutcome` oracle, `Instant` timestamps are
modelled as natural numbers supplied by the caller, and Rust `u64`/`u128`
values are naturals (the only place where u128 overflow matters,
`saturating_add` in the fee-tier computation, is modelled with an explicit
`min _ U128_MAX`).  `f64` quantities that only matter through their
presence or absence (gas-used ratios, moving average, volatility) are
modelled as exact rationals; the one `f64` computation whose value a claim
inspects (`(p as f64) * SUGGESTION_RAMP_FACTOR`) is modelled exactly via
`fl53`, the IEEE-754 round-to-nearest-ties-even conversion of a natural to
a double, since the ramp factor is exactly 2.0 and doubling a finite
double is exact.
-/

-- ========================= config.rs constants =========================

/-- Source: `config.rs`, `STALE_AFTER = Duration::from_secs(20)` (seconds). -/
def STALE_AFTER : ℕ := 20

/-- Source: `config.rs`, `DEFAULT_MAX_BLOCK_HISTORY`. -/
def DEFAULT_MAX_BLOCK_HISTORY : ℕ := 20

/-- Source: `config.rs`, `MAX_BACKFILL_PER_CYCLE`. -/
def MAX_BACKFILL_PER_CYCLE : ℕ := 6

/-- Source: `config.rs`, `FEE_HISTORY_BLOCKS`. -/
def FEE_HISTORY_BLOCKS : ℕ := 20

/-- Source: `config.rs`, `FEE_HISTORY_PERCENTILES : [f64; 5] = [10.0, 25.0, 50.0, 75.0, 90.0]`.
The five constants are exactly representable as doubles, so rationals model them exactly. -/
def FEE_HISTORY_PERCENTILES : List ℚ := [10, 25, 50, 75, 90]

/-- Source: `config.rs`, `SUGGESTION_RAMP_FACTOR : f64 = 2.0` (exactly representable). -/
def SUGGESTION_RAMP_FACTOR_Q : ℚ := 2

/-- The value of `f64::EPSILON`, used by the percentile lookup in `collect_metrics`. -/
def f64Eps : ℚ := 1 / 2 ^ 52

/-- Largest `u128` value, for the saturating operations in the fee-tier computation. -/
def U128_MAX : ℕ := 2 ^ 128 - 1

-- ========================= data.rs data model =========================

/-- Source: `data.rs`, `enum ConnectionStatus`. -/
inductive ConnectionStatus where
  | Connected
  | Stale
  | Disconnected
  | Error (reason : String)
deriving DecidableEq, Repr

/-- Mirror of Rust `matches!(status, ConnectionStatus::Connected)`. -/
def ConnectionStatus.isConnected : ConnectionStatus → Bool
  | .Connected => true
  | _ => false

/-- Source: `data.rs`, `struct BlockInfo`.  `blobs` holds opaque
`BlobTransactionSidecarItem` payloads never inspected by the engine, modelled as `Unit`. -/
structure BlockInfo where
  number : ℕ
  hash : String
  parent_hash : String
  timestamp : ℕ
  tx_count : ℕ
  gas_used : ℕ
  gas_limit : ℕ
  blobs : List Unit
  base_fee_per_gas : Option ℕ
  blob_gas_used : Option ℕ
  excess_blob_gas : Option ℕ
deriving DecidableEq, Repr

/-- Source: `data.rs`, `struct SuggestedFeeTier` (wei amounts). -/
structure SuggestedFeeTier where
  max_fee_per_gas : ℕ
  max_priority_fee_per_gas : ℕ
deriving DecidableEq, Repr

/-- Source: `data.rs`, `struct SuggestedFees`. -/
structure SuggestedFees where
  safe : SuggestedFeeTier
  standard : SuggestedFeeTier
  fast : SuggestedFeeTier
deriving DecidableEq, Repr

/-- Source: `data.rs`, `struct FeeHistoryMetrics`.  `gas_used_ratios` are `f64`
percentages, modelled as exact rationals. -/
structure FeeHistoryMetrics where
  oldest_block : ℕ
  block_count : ℕ
  base_fees : List ℕ
  gas_used_ratios : List ℚ
  reward_percentiles : List (ℕ × List ℕ)
deriving DecidableEq, Repr

-- ========================= tx-pool model =========================

/-- Source: `data.rs`, `struct TxPoolTx`.  `B256`/`Address`/`U256` identifiers and
amounts are modelled as naturals (their numeric value; only defaulting behaviour
matters to the engine). -/
structure TxPoolTx where
  hash : ℕ
  fromAddr : ℕ
  toAddr : Option ℕ
  value : ℕ
  nonce : ℕ
  gas_limit : Option ℕ
  max_fee_per_gas : Option ℕ
  max_priority_fee_per_gas : Option ℕ
  gas_price : Option ℕ
  tx_type : Option ℕ
deriving DecidableEq, Repr

/-- Source: `data.rs`, `struct TxPoolTransactionWire`.  Each wire field is an optional
hex string; the engine only ever consumes it through a `parse_hex_*` function, so a
field here holds the parse result directly (`none` = field absent or unparseable).
The fields `from` and `to` clash with Lean keywords and are named `fromAddr`/`toAddr`. -/
structure TxPoolTransactionWire where
  hash : Option ℕ
  fromAddr : Option ℕ
  toAddr : Option ℕ
  value : Option ℕ
  nonce : Option ℕ
  gas : Option ℕ
  gas_price : Option ℕ
  max_fee_per_gas : Option ℕ
  max_priority_fee_per_gas : Option ℕ
  tx_type : Option ℕ
deriving DecidableEq, Repr

/-- Source: `data.rs`, `TxPoolTx::from_wire`.  Returns `none` exactly when the
mandatory `from` address fails to parse; every other field falls back to a default
(`unwrap_or_default` / `unwrap_or(0)`); `type` is truncated `as u8`. -/
def TxPoolTx.from_wire (t : TxPoolTransactionWire) : Option TxPoolTx :=
  match t.fromAddr with
  | none => none
  | some f =>
    some { hash := t.hash.getD 0
           fromAddr := f
           toAddr := t.toAddr
           value := t.value.getD 0
           nonce := t.nonce.getD 0
           gas_limit := t.gas
           max_fee_per_gas := t.max_fee_per_gas
           max_priority_fee_per_gas := t.max_priority_fee_per_gas
           gas_price := t.gas_price
           tx_type := t.tx_type.map (· % 256) }

/-- Source: `data.rs`, `struct TxPoolCursor`. -/
structure TxPoolCursor where
  txn_hash : Option String
  score : Option ℕ
  global_transaction_score_key : Option String
deriving DecidableEq, Repr

/-- Source: `data.rs`, `struct TxPoolTransactionsResponse`. -/
structure TxPoolTransactionsResponse where
  transactions : Option (List TxPoolTransactionWire)
  cursor : Option TxPoolCursor
deriving DecidableEq, Repr

/-- Minimal JSON value model for `count_items`: the function only distinguishes
arrays (and their length), objects (and the arrays stored under recognised keys),
and everything else. -/
inductive JsonVal where
  | arr (elems : List JsonVal)
  | obj (fields : List (String × JsonVal))
  | other
deriving Repr

/-- Helper for `count_items`: `obj.get(key).and_then(|x| x.as_array()).map(len)`. -/
def lookupArrLen (fields : List (String × JsonVal)) (key : String) : Option ℕ :=
  match fields.lookup key with
  | some (.arr a) => some a.length
  | _ => none

/-- Source: `data.rs`, `fn count_items`. -/
def count_items (v : JsonVal) : Option ℕ :=
  match v with
  | .arr a => some a.length
  | .obj fields =>
    ["items", "data", "transactions", "bundles", "signedOrders", "signed_orders"].findSome?
      (fun key => lookupArrLen fields key)
  | .other => none

/-- Outcome of one HTTP count request once a response object was received:
the HTTP status class, and the result of reading the body text
(`Except.error` = the body read itself failed; `some j` / `none` = the text
parsed / did not parse as JSON). -/
structure CountResp where
  success : Bool
  text : Except String (Option JsonVal)

/-- Source: `data.rs`, `TxPoolClient::fetch_count_from`.  The argument is the
outcome of `self.http.get(url).send()`: `Except.error` models a transport
failure (propagated by `?`), `Except.ok` a received response. -/
def fetch_count_from (o : Except String CountResp) : Except String (Option ℕ) :=
  match o with
  | .error e => .error e
  | .ok r =>
    if r.success = false then .ok none
    else
      match r.text with
      | .error e => .error e
      | .ok none => .ok none
      | .ok (some j) => .ok (count_items j)

/-- Outcome of the `/transactions` list request once a response was received;
`text` holds the body-read result, with `some parsed` / `none` for a body that
did / did not deserialize as `TxPoolTransactionsResponse`. -/
structure TxListResp where
  success : Bool
  text : Except String (Option TxPoolTransactionsResponse)

/-- Source: `data.rs`, `struct TxPoolMetrics`. -/
structure TxPoolMetrics where
  healthy : Bool
  last_updated : ℕ
  error : Option String
  base_url : String
  transactions_cache : Option ℕ
  bundles_cache : Option ℕ
  signed_orders_cache : Option ℕ
  transactions : List TxPoolTx
  has_more : Bool
deriving DecidableEq, Repr

/-- Source: `data.rs`, `TxPoolMetrics::new`. -/
def TxPoolMetrics.new (now : ℕ) (base_url : String) : TxPoolMetrics :=
  { healthy := false
    last_updated := now
    error := none
    base_url := base_url
    transactions_cache := none
    bundles_cache := none
    signed_orders_cache := none
    transactions := []
    has_more := false }

/-- Source: `data.rs`, `TxPoolMetrics::with_error`. -/
def TxPoolMetrics.with_error (now : ℕ) (err : String) : TxPoolMetrics :=
  { healthy := false
    last_updated := now
    error := some err
    base_url := ""
    transactions_cache := none
    bundles_cache := none
    signed_orders_cache := none
    transactions := []
    has_more := false }

/-- Source: `data.rs`, `struct TxPoolClient` (configuration part only; the HTTP
client handle is replaced by outcome oracles). -/
structure TxPoolClient where
  base_url : String
  max_rows : ℕ
  fetch_list : Bool

/-- Source: `data.rs`, `TxPoolClient::new` (`max_rows: max_rows.max(1)`). -/
def TxPoolClient.new (base_url : String) (max_rows : ℕ) (fetch_list : Bool) : TxPoolClient :=
  { base_url := base_url, max_rows := max max_rows 1, fetch_list := fetch_list }

/-- Source: `data.rs`, `TxPoolClient::fetch_transactions` (cursor `None`, as in
`fetch_metrics`: the cursor only adds query parameters, which are part of the
oracle's outcome).  A non-2xx status and a body that fails to deserialize are
errors here, unlike in `fetch_count_from`. -/
def TxPoolClient.fetch_transactions (c : TxPoolClient) (o : Except String TxListResp) :
    Except String (List TxPoolTx × Bool) :=
  if c.fetch_list = false then .ok ([], false)
  else
    match o with
    | .error e => .error e
    | .ok r =>
      if r.success = false then .error "/transactions HTTP status"
      else
        match r.text with
        | .error e => .error e
        | .ok none => .error "invalid JSON body"
        | .ok (some parsed) =>
          let has_more := parsed.cursor.isSome
          let out := (parsed.transactions.getD []).filterMap TxPoolTx.from_wire
          let out := if out.length > c.max_rows then out.take c.max_rows else out
          .ok (out, has_more)

/-- The four independent network outcomes consumed by one `fetch_metrics` call. -/
structure PoolOutcome where
  txCount : Except String CountResp
  bundlesCount : Except String CountResp
  ordersCount : Except String CountResp
  txList : Except String TxListResp

/-- Source: `data.rs`, `TxPoolClient::fetch_metrics`.  Errors from the four
sub-fetches are accumulated in order; the returned snapshot is always `Ok` in
the source, so the model is total. -/
def TxPoolClient.fetch_metrics (c : TxPoolClient) (now : ℕ) (o : PoolOutcome) : TxPoolMetrics :=
  let out := TxPoolMetrics.new now c.base_url
  let step1 : TxPoolMetrics × List String :=
    match fetch_count_from o.txCount with
    | .ok v => ({ out with transactions_cache := v }, [])
    | .error e => (out, ["transactions: " ++ e])
  let step2 : TxPoolMetrics × List String :=
    match fetch_count_from o.bundlesCount with
    | .ok v => ({ step1.1 with bundles_cache := v }, step1.2)
    | .error e => (step1.1, step1.2 ++ ["bundles: " ++ e])
  let step3 : TxPoolMetrics × List String :=
    match fetch_count_from o.ordersCount with
    | .ok v => ({ step2.1 with signed_orders_cache := v }, step2.2)
    | .error e => (step2.1, step2.2 ++ ["signed-orders: " ++ e])
  let step4 : TxPoolMetrics × List String :=
    match c.fetch_transactions o.txList with
    | .ok txsHm => ({ step3.1 with transactions := txsHm.1, has_more := txsHm.2 }, step3.2)
    | .error e => (step3.1, step3.2 ++ ["transactions list: " ++ e])
  let outF := step4.1
  let errors := step4.2
  if errors.isEmpty then { outF with healthy := true }
  else
    { outF with
      healthy := outF.transactions_cache.isSome || outF.bundles_cache.isSome ||
        outF.signed_orders_cache.isSome || !outF.transactions.isEmpty
      error := some (String.intercalate ", " errors) }

-- ========================= metrics model =========================

/-- Source: `data.rs`, `struct SignetMetrics`.  `Instant` timestamps are naturals,
`VecDeque<BlockInfo>` is a list with the front (newest) at the head, and the three
`f64` derived signals are exact rationals. -/
structure SignetMetrics where
  block_number : Option ℕ
  gas_price : Option ℕ
  chain_id : Option ℕ
  last_updated : ℕ
  last_successful : Option ℕ
  rpc_url : String
  connection_status : ConnectionStatus
  block_history : List BlockInfo
  max_block_history : ℕ
  latest_block_timestamp : Option ℕ
  block_delay_threshold : ℕ
  txpool : Option TxPoolMetrics
  base_fee_per_gas : Option ℕ
  next_base_fee_per_gas : Option ℕ
  max_priority_fee_suggested : Option ℕ
  suggested_fees : Option SuggestedFees
  fee_history : Option FeeHistoryMetrics
  gas_utilization_ma_n : Option ℚ
  gas_volatility_5m : Option ℚ
  blob_base_fee : Option ℕ
  blob_base_fee_next : Option ℕ
  blob_gas_utilization_ma_n : Option ℚ

/-- Source: `data.rs`, `struct Config`. -/
structure Config where
  rpc_url : String
  block_delay_threshold : ℕ
  max_block_history : ℕ
  txpool_max_rows : ℕ
  txpool_fetch_list : Bool

/-- Source: `data.rs`, `SignetMetrics::new` (`Instant::now()` is the supplied `now`). -/
def SignetMetrics.new (now : ℕ) (config : Config) : SignetMetrics :=
  { block_number := none
    gas_price := none
    chain_id := none
    last_updated := now
    last_successful := none
    rpc_url := config.rpc_url
    connection_status := .Disconnected
    block_history := []
    max_block_history := config.max_block_history
    latest_block_timestamp := none
    block_delay_threshold := config.block_delay_threshold
    txpool := none
    base_fee_per_gas := none
    next_base_fee_per_gas := none
    max_priority_fee_suggested := none
    suggested_fees := none
    fee_history := none
    gas_utilization_ma_n := none
    gas_volatility_5m := none
    blob_base_fee := none
    blob_base_fee_next := none
    blob_gas_utilization_ma_n := none }

-- ========================= fee estimator =========================

/-- Source: `data.rs`, `struct EthFeeHistoryResult`, after hex decoding: each entry of
`base_fee_per_gas` and of a `reward` row holds its `hex_to_u128` parse result
(`none` = unparseable hex), `oldest_block` its `hex_to_u64` result, and the
`gas_used_ratio` entries (plain JSON numbers) are rationals. -/
structure EthFeeHistoryResult where
  oldest_block : Option ℕ
  base_fee_per_gas : List (Option ℕ)
  gas_used_ratio : List ℚ
  reward : List (List (Option ℕ))

/-- Source: `data.rs`, the `pick_priority` closure in `collect_metrics`: find the
index of `target` in `FEE_HISTORY_PERCENTILES` (comparison within `f64::EPSILON`),
then read the last block's reward row at that index. -/
def pickPriority (reward : List (List (Option ℕ))) (lastIdx : ℕ) (target : ℚ) : Option ℕ :=
  match FEE_HISTORY_PERCENTILES.findIdx? (fun p => decide (|p - target| < f64Eps)) with
  | none => none
  | some idx => ((reward.get? lastIdx).bind (fun row => row.get? idx)).bind id

/-- Source: `data.rs`, `prio_safe = pick_priority(25.0).or_else(10.0).or_else(50.0)`. -/
def prioSafe (reward : List (List (Option ℕ))) (lastIdx : ℕ) : Option ℕ :=
  ((pickPriority reward lastIdx 25).or (pickPriority reward lastIdx 10)).or
    (pickPriority reward lastIdx 50)

/-- Source: `data.rs`, `prio_std = pick_priority(50.0).or(prio_safe)`. -/
def prioStd (reward : List (List (Option ℕ))) (lastIdx : ℕ) : Option ℕ :=
  (pickPriority reward lastIdx 50).or (prioSafe reward lastIdx)

/-- Source: `data.rs`, `prio_fast = pick_priority(75.0).or_else(90.0).or(prio_std)`. -/
def prioFast (reward : List (List (Option ℕ))) (lastIdx : ℕ) : Option ℕ :=
  ((pickPriority reward lastIdx 75).or (pickPriority reward lastIdx 90)).or
    (prioStd reward lastIdx)

/-- Bit length helper with explicit fuel (strictly more than the 128 bits a `u128`
can need, so the fuel never runs out on source-reachable values). -/
def bitsAux : ℕ → ℕ → ℕ
  | 0, _ => 0
  | fuel + 1, n => if n = 0 then 0 else bitsAux fuel (n / 2) + 1

/-- Number of binary digits of `n` (0 for 0). -/
def bitLen (n : ℕ) : ℕ := bitsAux 300 n

/-- The exact value of the Rust cast `n as f64` for a natural `n < 2^300`:
IEEE-754 binary64 rounding to nearest, ties to even, with a 53-bit significand.
The result of the cast is always a nonnegative integer, returned as a natural.
For `n < 2^53` the cast is exact. -/
def fl53 (n : ℕ) : ℕ :=
  if n < 2 ^ 53 then n
  else
    let e := bitLen n - 53
    let q := n / 2 ^ e
    let r := n % 2 ^ e
    if 2 * r < 2 ^ e then q * 2 ^ e
    else if 2 * r > 2 ^ e then (q + 1) * 2 ^ e
    else if q % 2 = 0 then q * 2 ^ e else (q + 1) * 2 ^ e

/-- Source: `data.rs`, the `mk` closure in `collect_metrics`:
`next.saturating_add(((p as f64) * SUGGESTION_RAMP_FACTOR) as u128)` when both the
tier's priority fee and the next base fee are known, the zero `SuggestedFeeTier`
otherwise.  Since `SUGGESTION_RAMP_FACTOR = 2.0`, the `f64` product is exactly
`2 * fl53 p` (doubling a finite double only increments the exponent), and the
`as u128` cast of that nonnegative integral double saturates at `U128_MAX`. -/
def mkTier (nextBase : Option ℕ) (prio : Option ℕ) : SuggestedFeeTier :=
  match prio, nextBase with
  | some p, some next =>
    { max_fee_per_gas := min (next + min (2 * fl53 p) U128_MAX) U128_MAX
      max_priority_fee_per_gas := p }
  | _, _ => { max_fee_per_gas := 0, max_priority_fee_per_gas := 0 }

/-- Source: `data.rs`, `let last_idx = if block_count > 0 { block_count - 1 } else { 0 }`. -/
def feeLastIdx (blockCount : ℕ) : ℕ := if blockCount > 0 then blockCount - 1 else 0

/-- Source: `data.rs`, the `Ok(h)` branch of the fee-history match in
`collect_metrics`: decode base fees, derive current/next base fee, utilization
moving average, volatility, reward percentile series, and the three suggested
tiers, and store them all in the metrics.  In the `len >= 2` branch the Rust
indexing `base_fees[len-2]` / `base_fees[len-1]` is in bounds, so `List.get?`
returns exactly those elements wrapped in `some`. -/
def applyFeeHistory (s : SignetMetrics) (h : EthFeeHistoryResult) : SignetMetrics :=
  let base_fees : List ℕ := h.base_fee_per_gas.filterMap id
  let bl := base_fees.length
  let current_base_fee : Option ℕ :=
    if 2 ≤ bl then base_fees.get? (bl - 2) else base_fees.getLast?
  let next_base_fee : Option ℕ :=
    if 2 ≤ bl then base_fees.get? (bl - 1) else none
  let gas_used_ratios : List ℚ := h.gas_used_ratio.map (fun r => r * 100)
  let utilization_ma : Option ℚ :=
    if gas_used_ratios.isEmpty then none
    else some (gas_used_ratios.sum / (gas_used_ratios.length : ℚ))
  let volatility : Option ℚ :=
    if 2 ≤ bl then
      let sample := base_fees.dropLast
      let avg : ℚ := (sample.map (fun x => (x : ℚ))).sum / (sample.length : ℚ)
      let cur : ℚ := ((sample.getLast?).getD 0 : ℕ)
      if avg > 0 then some ((cur - avg) / avg) else none
    else none
  let block_count := h.gas_used_ratio.length
  let reward_perc : List (ℕ × List ℕ) :=
    FEE_HISTORY_PERCENTILES.enum.map
      (fun pip => (pip.2.floor.toNat, h.reward.filterMap (fun row => (row.get? pip.1).bind id)))
  let last_idx := feeLastIdx block_count
  { s with
    base_fee_per_gas := current_base_fee
    next_base_fee_per_gas := next_base_fee
    gas_utilization_ma_n := utilization_ma
    gas_volatility_5m := volatility
    suggested_fees := some
      { safe := mkTier next_base_fee (prioSafe h.reward last_idx)
        standard := mkTier next_base_fee (prioStd h.reward last_idx)
        fast := mkTier next_base_fee (prioFast h.reward last_idx) }
    fee_history := some
      { oldest_block := h.oldest_block.getD 0
        block_count := block_count
        base_fees := base_fees
        gas_used_ratios := gas_used_ratios
        reward_percentiles := reward_perc } }

/-- Source: `data.rs`, the `Err(_e)` branch of the fee-history match:
null out dependent fields, do not change status. -/
def clearFeeFields (s : SignetMetrics) : SignetMetrics :=
  { s with
    fee_history := none
    base_fee_per_gas := none
    next_base_fee_per_gas := none
    suggested_fees := none
    gas_utilization_ma_n := none
    gas_volatility_5m := none }

-- ========================= block history store =========================

/-- Source: `data.rs`, the `fetch_range` computation in `collect_metrics`:
`(last+1..=latest).rev().take(MAX_BACKFILL_PER_CYCLE)` when newer blocks exist,
`[]` when not, `[latest]` when the history is empty. -/
def fetchRange (maxBackfill : ℕ) (lastRecorded : Option ℕ) (latest : ℕ) : List ℕ :=
  match lastRecorded with
  | some last =>
    if last < latest then ((List.range' (last + 1) (latest - last)).reverse).take maxBackfill
    else []
  | none => [latest]

/-- `k` iterations of `VecDeque::pop_back` (dropping the oldest entry). -/
def popBackN : ℕ → List BlockInfo → List BlockInfo
  | 0, l => l
  | k + 1, l => popBackN k l.dropLast

/-- Source: `data.rs`, the `while self.metrics.block_history.len() > max { pop_back() }`
loop: one `pop_back` per element in excess of the bound. -/
def evictBack (maxHist : ℕ) (l : List BlockInfo) : List BlockInfo :=
  popBackN (l.length - maxHist) l

/-- Source: `data.rs`, the body of the `for num in fetch_range` loop: a failed
`get_block_by_number` (oracle `none`) is skipped silently; a fetched block bumps
`latest_block_timestamp` to the max timestamp seen, is pushed to the front, and
the history is evicted from the back down to the bound. -/
def historyStepFn (blocks : ℕ → Option BlockInfo) (st : SignetMetrics) (num : ℕ) :
    SignetMetrics :=
  match blocks num with
  | none => st
  | some block =>
    let st' :=
      if (st.latest_block_timestamp.map (fun cur => decide (block.timestamp > cur))).getD true then
        { st with latest_block_timestamp := some block.timestamp }
      else st
    { st' with block_history := evictBack st'.max_block_history (block :: st'.block_history) }

/-- Source: `data.rs`, the block-history maintenance section of `collect_metrics`
(entered when still connected with a known block number). -/
def historyStage (blocks : ℕ → Option BlockInfo) (s : SignetMetrics) (latest : ℕ) :
    SignetMetrics :=
  (fetchRange MAX_BACKFILL_PER_CYCLE ((s.block_history.head?).map (·.number)) latest).foldl
    (historyStepFn blocks) s

-- ========================= poll pipeline =========================

/-- The outcomes of the network calls a single `collect_metrics` cycle may issue,
plus the clock value for `Instant::now()` at the end of the cycle.  `blocks` is the
per-number outcome of `get_block_by_number`; `feeHistory`/`maxPriorityFee` are `none`
on call failure; `txpoolFetch` is `none` when no tx-pool client is configured,
otherwise the (always-`Ok`) result of `TxPoolClient::fetch_metrics`. -/
structure PollOutcome where
  now : ℕ
  chainId : Except String ℕ
  blockNumber : Except String ℕ
  blocks : ℕ → Option BlockInfo
  gasPrice : Except String ℕ
  feeHistory : Option EthFeeHistoryResult
  maxPriorityFee : Option ℕ
  txpoolFetch : Option TxPoolMetrics

/-- Cycle status after the chain-id probe (stage 1 of `collect_metrics`). -/
def statusAfterChain (o : PollOutcome) : ConnectionStatus :=
  match o.chainId with
  | .ok _ => .Connected
  | .error e => .Error ("Chain ID: " ++ e)

/-- Cycle status after the block-number stage (stage 2 of `collect_metrics`). -/
def statusAfterBlock (o : PollOutcome) : ConnectionStatus :=
  match statusAfterChain o with
  | .Connected =>
    match o.blockNumber with
    | .ok _ => .Connected
    | .error e => .Error ("Block number: " ++ e)
  | st => st

/-- Cycle status after the gas-price stage; the fee-history and priority-fee
calls never modify it. -/
def statusAfterGas (o : PollOutcome) : ConnectionStatus :=
  match statusAfterBlock o with
  | .Connected =>
    match o.gasPrice with
    | .ok _ => .Connected
    | .error e => .Error ("Gas price: " ++ e)
  | st => st

/-- Stage 1 of `collect_metrics`: record the chain id on success. -/
def applyChain (s : SignetMetrics) (o : PollOutcome) : SignetMetrics :=
  match o.chainId with
  | .ok cid => { s with chain_id := some cid }
  | .error _ => s

/-- Stage 2 of `collect_metrics`: if still connected, record the block number on
success (the call is only issued in that case). -/
def applyBlockNum (s : SignetMetrics) (o : PollOutcome) : SignetMetrics :=
  if (statusAfterChain o).isConnected then
    match o.blockNumber with
    | .ok b => { s with block_number := some b }
    | .error _ => s
  else s

/-- Stage 3 of `collect_metrics`: block-history maintenance, entered if still
connected and a block number is known. -/
def applyHistory (s : SignetMetrics) (o : PollOutcome) : SignetMetrics :=
  if (statusAfterBlock o).isConnected then
    match s.block_number with
    | some latest => historyStage o.blocks s latest
    | none => s
  else s

/-- Stages 4-5 of `collect_metrics`: the gas-price call, the best-effort
fee-history computation, and the best-effort RPC priority-fee suggestion,
all guarded by one connectivity check taken before the gas-price call
(so the fee-history branch runs even when the gas-price call failed). -/
def applyGasBlock (s : SignetMetrics) (o : PollOutcome) : SignetMetrics :=
  if (statusAfterBlock o).isConnected then
    let sa :=
      match o.gasPrice with
      | .ok g => { s with gas_price := some g }
      | .error _ => s
    let sb :=
      match o.feeHistory with
      | some h => applyFeeHistory sa h
      | none => clearFeeFields sa
    match o.maxPriorityFee with
    | some p => { sb with max_priority_fee_suggested := some p }
    | none => { sb with max_priority_fee_suggested := none }
  else s

/-- End of `collect_metrics`: publish the cycle status, stamp `last_updated`,
stamp `last_successful` when the final status is `Connected`, and store the
tx-pool snapshot when a tx-pool client is configured. -/
def finalizePoll (s : SignetMetrics) (o : PollOutcome) : SignetMetrics :=
  let s1 := { s with connection_status := statusAfterGas o, last_updated := o.now }
  let s2 :=
    if (statusAfterGas o).isConnected then { s1 with last_successful := some s1.last_updated }
    else s1
  match o.txpoolFetch with
  | some t => { s2 with txpool := some t }
  | none => s2

/-- Source: `data.rs`, `MetricsCollector::collect_metrics`, as the composition of
its stages in source order. -/
def collectMetrics (s : SignetMetrics) (o : PollOutcome) : SignetMetrics :=
  finalizePoll (applyGasBlock (applyHistory (applyBlockNum (applyChain s o) o) o) o) o

/-- A sequence of polls from a given state. -/
def runPolls (s : SignetMetrics) (os : List PollOutcome) : SignetMetrics :=
  os.foldl collectMetrics s

/-- Source: `data.rs`, `MetricsCollector::check_staleness`.  `last_ok.elapsed()`
is `now - last_ok` (saturating, like the nonnegative `Duration`). -/
def check_staleness (now : ℕ) (s : SignetMetrics) : SignetMetrics :=
  match s.connection_status with
  | .Connected | .Stale =>
    match s.last_successful with
    | some last_ok =>
      if now - last_ok > STALE_AFTER then { s with connection_status := .Stale } else s
    | none => s
  | _ => s

/-- Strict-descent check on a list of block numbers (spec invariant:
`blockHistory[i].number > blockHistory[i+1].number`). -/
def strictDesc : List ℕ → Bool
  | [] => true
  | [_] => true
  | a :: b :: t => (decide (b < a)) && strictDesc (b :: t)


-- ========================= concrete example inputs =========================

/-- Concrete config for the C1 scenario (`DEFAULT_MAX_BLOCK_HISTORY = 20`, no tx-pool list). -/
def c1Cfg : Config :=
  { rpc_url := "http://node", block_delay_threshold := 60,
    max_block_history := DEFAULT_MAX_BLOCK_HISTORY, txpool_max_rows := 10,
    txpool_fetch_list := false }

/-- A block of number `n` as returned by a successful `get_block_by_number`. -/
def c1Block (n : ℕ) : BlockInfo :=
  { number := n, hash := "h", parent_hash := "p", timestamp := n, tx_count := 0,
    gas_used := 0, gas_limit := 0, blobs := [], base_fee_per_gas := none,
    blob_gas_used := none, excess_blob_gas := none }

/-- A fully successful poll outcome whose observed chain head is `latest` and in
which every individual block fetch succeeds. -/
def c1Outcome (latest : ℕ) : PollOutcome :=
  { now := latest, chainId := .ok 1, blockNumber := .ok latest,
    blocks := fun n => some (c1Block n), gasPrice := .ok 1, feeHistory := none,
    maxPriorityFee := none, txpoolFetch := none }

/-- The reachable state of the C1 scenario: three single-block polls build the
history `[105, 104, 103]`, then a poll observes head `112` (a gap of 7 with
`maxBackfillPerCycle = 6`). -/
def c1Run : SignetMetrics :=
  runPolls (SignetMetrics.new 0 c1Cfg)
    [c1Outcome 103, c1Outcome 104, c1Outcome 105, c1Outcome 112]

/-- A tx-pool client with the transaction-list fetch enabled. -/
def c2Client : TxPoolClient := TxPoolClient.new "http://pool" 10 true

/-- A wire transaction whose mandatory sender parses, so `from_wire` keeps it. -/
def c2Wire (f : ℕ) : TxPoolTransactionWire :=
  { hash := some f, fromAddr := some f, toAddr := none, value := some 5, nonce := some 0,
    gas := none, gas_price := none, max_fee_per_gas := none,
    max_priority_fee_per_gas := none, tx_type := none }

/-- The C2 scenario: all three count endpoints unreachable (transport errors),
transaction-list call succeeds with 2 rows. -/
def c2Outcome : PoolOutcome :=
  { txCount := .error "connection refused"
    bundlesCount := .error "connection refused"
    ordersCount := .error "connection refused"
    txList := .ok
      { success := true
        text := .ok (some { transactions := some [c2Wire 1, c2Wire 2], cursor := none }) } }

/-- A freshly constructed metrics state (used to instantiate universally
quantified theorems at a concrete state). -/
def exState : SignetMetrics := SignetMetrics.new 0 c1Cfg

/-- A poll outcome whose chain-id probe fails. -/
def c4Outcome : PollOutcome :=
  { now := 0, chainId := .error "boom", blockNumber := .error "x",
    blocks := fun _ => none, gasPrice := .error "y", feeHistory := none,
    maxPriorityFee := none, txpoolFetch := none }

/-- A poll outcome where chain id, block number and gas price succeed but the
fee-history and priority-fee calls fail. -/
def c6Outcome : PollOutcome :=
  { now := 5, chainId := .ok 1, blockNumber := .ok 100,
    blocks := fun _ => none, gasPrice := .ok 2, feeHistory := none,
    maxPriorityFee := none, txpoolFetch := none }

/-- A small successful fee-history sample (two base fees, one gas-used ratio,
one full reward row). -/
def c6FeeHist : EthFeeHistoryResult :=
  { oldest_block := some 1
    base_fee_per_gas := [some 10, some 12]
    gas_used_ratio := [1 / 2]
    reward := [[some 1, some 2, some 3, some 4, some 5]] }

/-- The C6 outcome with the fee-history call succeeding instead. -/
def c6OutcomeB : PollOutcome :=
  { c6Outcome with feeHistory := some c6FeeHist }

/-- A state whose status is `Connected` with an old `last_successful`. -/
def c7ConnState : SignetMetrics :=
  { exState with connection_status := .Connected, last_successful := some 0 }

/-- A state whose status is `Stale`. -/
def c7StaleState : SignetMetrics :=
  { exState with connection_status := .Stale, last_successful := some 0 }

/-- A state whose status is `Error`. -/
def c7ErrState : SignetMetrics :=
  { exState with connection_status := .Error "x", last_successful := some 0 }

/-- A reward table in which only the 50th-percentile entry of the (single) row
is populated. -/
def c9Reward : List (List (Option ℕ)) := [[none, none, some 7, none, none]]

/-- A received response with a non-2xx status. -/
def c10RespBadStatus : CountResp := { success := false, text := .ok none }

/-- A received 2xx response whose body is not valid JSON. -/
def c10RespBadJson : CountResp := { success := true, text := .ok none }

/-- A received 2xx response whose JSON body has no recognised container shape. -/
def c10RespBadShape : CountResp := { success := true, text := .ok (some .other) }

/-- A pool outcome in which every sub-fetch yields a received (non-transport-error)
response, though none of the counts is recognisable. -/
def c10Outcome : PoolOutcome :=
  { txCount := .ok c10RespBadStatus
    bundlesCount := .ok c10RespBadJson
    ordersCount := .ok c10RespBadShape
    txList := .ok { success := true, text := .ok (some { transactions := none, cursor := none }) } }

/-- A tx-pool client for the C10 witness (list fetch enabled). -/
def c10Client : TxPoolClient := TxPoolClient.new "http://pool" 5 true

/-- Modelled from the spec's words (paragraph 4.3): suggested `maxFeePerGas` for a
tier = `nextBaseFeePerGas + round(priorityFee x rampFactor)`, with the ramp factor
2.0 and exact real arithmetic.  This is the spec-side formula, kept separate from
`mkTier` (the source-side computation) for the refinement comparison of C8. -/
def specSuggestedMaxFee (next p : ℕ) : ℕ :=
  next + (round ((p : ℚ) * SUGGESTION_RAMP_FACTOR_Q)).toNat

-- ========================= helper lemmas =========================

lemma popBackN_eq_take (k : ℕ) (l : List BlockInfo) : popBackN k l = l.take (l.length - k) := by
  induction k generalizing l with
  | zero => simp [popBackN]
  | succ k ih =>
    rw [popBackN, ih, List.length_dropLast, List.dropLast_eq_take, List.take_take]
    congr 1
    omega

lemma evictBack_eq_take (maxH : ℕ) (l : List BlockInfo) :
    evictBack maxH l = l.take (min maxH l.length) := by
  rw [evictBack, popBackN_eq_take]
  congr 1
  omega

lemma evictBack_length_le (maxH : ℕ) (l : List BlockInfo) :
    (evictBack maxH l).length ≤ maxH := by
  rw [evictBack_eq_take, List.length_take]
  omega

lemma historyStepFn_frame (blocks : ℕ → Option BlockInfo) (st : SignetMetrics) (num : ℕ) :
    (historyStepFn blocks st num).max_block_history = st.max_block_history ∧
    (historyStepFn blocks st num).fee_history = st.fee_history ∧
    (historyStepFn blocks st num).max_priority_fee_suggested = st.max_priority_fee_suggested := by
  cases h : blocks num
  · simp [historyStepFn, h]
  · simp only [historyStepFn, h]
    split <;> exact ⟨rfl, rfl, rfl⟩

lemma historyStepFn_len (blocks : ℕ → Option BlockInfo) (st : SignetMetrics) (num : ℕ)
    (hP : st.block_history.length ≤ st.max_block_history) :
    (historyStepFn blocks st num).block_history.length ≤
      (historyStepFn blocks st num).max_block_history := by
  cases h : blocks num <;> simp only [historyStepFn, h]
  · exact hP
  · split <;> exact evictBack_length_le _ _

lemma historyFold_len (blocks : ℕ → Option BlockInfo) :
    ∀ (nums : List ℕ) (st : SignetMetrics),
      st.block_history.length ≤ st.max_block_history →
      (nums.foldl (historyStepFn blocks) st).block_history.length ≤
        (nums.foldl (historyStepFn blocks) st).max_block_history := by
  intro nums
  induction nums with
  | nil => intro st hP; exact hP
  | cons n ns ih =>
    intro st hP
    exact ih (historyStepFn blocks st n) (historyStepFn_len blocks st n hP)

lemma historyFold_frame (blocks : ℕ → Option BlockInfo) :
    ∀ (nums : List ℕ) (st : SignetMetrics),
      (nums.foldl (historyStepFn blocks) st).max_block_history = st.max_block_history := by
  intro nums
  induction nums with
  | nil => intro st; rfl
  | cons n ns ih =>
    intro st
    exact (ih (historyStepFn blocks st n)).trans (historyStepFn_frame blocks st n).1

lemma historyStage_len (blocks : ℕ → Option BlockInfo) (s : SignetMetrics) (latest : ℕ)
    (hP : s.block_history.length ≤ s.max_block_history) :
    (historyStage blocks s latest).block_history.length ≤
      (historyStage blocks s latest).max_block_history :=
  historyFold_len blocks _ s hP

lemma historyStage_max (blocks : ℕ → Option BlockInfo) (s : SignetMetrics) (latest : ℕ) :
    (historyStage blocks s latest).max_block_history = s.max_block_history :=
  historyFold_frame blocks _ s

lemma applyChain_bh (s : SignetMetrics) (o : PollOutcome) :
    (applyChain s o).block_history = s.block_history ∧
    (applyChain s o).max_block_history = s.max_block_history := by
  cases h : o.chainId <;> simp [applyChain, h]

lemma applyBlockNum_bh (s : SignetMetrics) (o : PollOutcome) :
    (applyBlockNum s o).block_history = s.block_history ∧
    (applyBlockNum s o).max_block_history = s.max_block_history := by
  unfold applyBlockNum
  split
  · cases h : o.blockNumber <;> simp [h]
  · exact ⟨rfl, rfl⟩

lemma applyHistory_len (s : SignetMetrics) (o : PollOutcome)
    (hP : s.block_history.length ≤ s.max_block_history) :
    (applyHistory s o).block_history.length ≤ (applyHistory s o).max_block_history ∧
    (applyHistory s o).max_block_history = s.max_block_history := by
  unfold applyHistory
  split
  · split
    · exact ⟨historyStage_len _ _ _ hP, historyStage_max _ _ _⟩
    · exact ⟨hP, rfl⟩
  · exact ⟨hP, rfl⟩

lemma applyGasBlock_bh (s : SignetMetrics) (o : PollOutcome) :
    (applyGasBlock s o).block_history = s.block_history ∧
    (applyGasBlock s o).max_block_history = s.max_block_history := by
  unfold applyGasBlock
  split
  · cases hg : o.gasPrice <;> cases hf : o.feeHistory <;> cases hm : o.maxPriorityFee <;>
      simp [hg, hf, hm, applyFeeHistory, clearFeeFields]
  · exact ⟨rfl, rfl⟩

lemma finalizePoll_frame (s : SignetMetrics) (o : PollOutcome) :
    (finalizePoll s o).block_history = s.block_history ∧
    (finalizePoll s o).max_block_history = s.max_block_history ∧
    (finalizePoll s o).fee_history = s.fee_history ∧
    (finalizePoll s o).base_fee_per_gas = s.base_fee_per_gas ∧
    (finalizePoll s o).next_base_fee_per_gas = s.next_base_fee_per_gas ∧
    (finalizePoll s o).suggested_fees = s.suggested_fees ∧
    (finalizePoll s o).gas_utilization_ma_n = s.gas_utilization_ma_n ∧
    (finalizePoll s o).gas_volatility_5m = s.gas_volatility_5m ∧
    (finalizePoll s o).max_priority_fee_suggested = s.max_priority_fee_suggested := by
  unfold finalizePoll
  cases ht : o.txpoolFetch <;> split <;> simp

lemma collect_status (s : SignetMetrics) (o : PollOutcome) :
    (collectMetrics s o).connection_status = statusAfterGas o := by
  unfold collectMetrics finalizePoll
  cases ht : o.txpoolFetch <;> split <;> simp

lemma collect_len (s : SignetMetrics) (o : PollOutcome)
    (hP : s.block_history.length ≤ s.max_block_history) :
    (collectMetrics s o).block_history.length ≤ (collectMetrics s o).max_block_history ∧
    (collectMetrics s o).max_block_history = s.max_block_history := by
  have h1 := applyChain_bh s o
  have h2 := applyBlockNum_bh (applyChain s o) o
  have h3 := applyHistory_len (applyBlockNum (applyChain s o) o) o
    (by rw [h2.1, h2.2, h1.1, h1.2]; exact hP)
  have h4 := applyGasBlock_bh (applyHistory (applyBlockNum (applyChain s o) o) o) o
  have h5 := finalizePoll_frame
    (applyGasBlock (applyHistory (applyBlockNum (applyChain s o) o) o) o) o
  unfold collectMetrics
  constructor
  · rw [h5.1, h5.2.1, h4.1, h4.2]
    exact h3.1
  · rw [h5.2.1, h4.2, h3.2, h2.2, h1.2]

lemma runPolls_len :
    ∀ (os : List PollOutcome) (s : SignetMetrics),
      s.block_history.length ≤ s.max_block_history →
      (runPolls s os).block_history.length ≤ (runPolls s os).max_block_history ∧
      (runPolls s os).max_block_history = s.max_block_history := by
  intro os
  induction os with
  | nil => intro s hP; exact ⟨hP, rfl⟩
  | cons o os ih =>
    intro s hP
    have hc := collect_len s o hP
    have hr := ih (collectMetrics s o) hc.1
    exact ⟨hr.1, hr.2.trans hc.2⟩

-- ========================= C1 =========================

/-- C1: evaluating `collect_metrics` on the spec's own scenario (prior history
`[105,104,103]`, new head 112, every fetch successful, `maxBackfillPerCycle = 6`)
yields the history `[107,108,109,110,111,112,105,104,103]`: the six backfilled
blocks sit in ascending order at the front, not `[112,111,110,109,108,107,...]`,
so the strict-descent invariant claimed for every reachable state is violated by
the code (the loop iterates the already-descending fetch range and `push_front`s
each block, reversing it a second time). -/
theorem c1_backfill_order_bug_eval :
    c1Run.block_history.map (·.number) = [107, 108, 109, 110, 111, 112, 105, 104, 103] ∧
    strictDesc (c1Run.block_history.map (·.number)) = false := by
  constructor <;> decide

-- ========================= C4 =========================

/-- C4: within one `collect_metrics` cycle the status pipeline is monotone:
an `Error` produced by the chain-id stage survives the block-number stage, an
`Error` present after the block-number stage survives the gas-price stage
(fee history and priority fee never touch the status), the snapshot's published
status is exactly the pipeline's final status, and a final `Connected` implies
every earlier stage was still `Connected` (so `Error` is never resurrected). -/
theorem status_pipeline_monotone (o : PollOutcome) (s : SignetMetrics) (m : String) :
    (statusAfterChain o = .Error m → statusAfterBlock o = .Error m) ∧
    (statusAfterBlock o = .Error m → statusAfterGas o = .Error m) ∧
    (collectMetrics s o).connection_status = statusAfterGas o ∧
    (statusAfterGas o = .Connected →
      statusAfterBlock o = .Connected ∧ statusAfterChain o = .Connected) := by
  refine ⟨?_, ?_, collect_status s o, ?_⟩
  · intro h
    simp [statusAfterBlock, h]
  · intro h
    simp [statusAfterGas, h]
  · intro h
    have hb : statusAfterBlock o = .Connected := by
      cases hsb : statusAfterBlock o <;> simp_all [statusAfterGas]
    refine ⟨hb, ?_⟩
    cases hsc : statusAfterChain o <;> simp_all [statusAfterBlock]

/-- C4 witness: with a failing chain-id probe, the error is preserved through the
later stages and published as the cycle's status. -/
theorem status_pipeline_monotone_witness :
    statusAfterBlock c4Outcome = .Error "Chain ID: boom" ∧
    statusAfterGas c4Outcome = .Error "Chain ID: boom" ∧
    (collectMetrics exState c4Outcome).connection_status = .Error "Chain ID: boom" := by
  have h := status_pipeline_monotone c4Outcome exState "Chain ID: boom"
  have h1 : statusAfterChain c4Outcome = .Error "Chain ID: boom" := by decide
  have h2 := h.1 h1
  have h3 := h.2.1 h2
  exact ⟨h2, h3, h.2.2.1.trans h3⟩

-- ========================= C5 =========================

/-- C5: for every sequence of polls from a fresh collector, with any pattern of
per-block fetch outcomes inside them, the history length stays within
`max_block_history` after every poll; moreover each push evicts from the back
(`dropLast`) exactly down to the bound: the eviction loop leaves the first
`min maxHist (length)` entries of the pushed-front deque. -/
theorem history_bound (cfg : Config) (now : ℕ) (os : List PollOutcome) :
    (runPolls (SignetMetrics.new now cfg) os).block_history.length ≤ cfg.max_block_history ∧
    ∀ (maxHist : ℕ) (l : List BlockInfo) (b : BlockInfo),
      (evictBack maxHist (b :: l)).length ≤ maxHist ∧
      evictBack maxHist (b :: l) = (b :: l).take (min maxHist (l.length + 1)) := by
  constructor
  · have h := runPolls_len os (SignetMetrics.new now cfg) (by simp [SignetMetrics.new])
    rw [h.2] at h
    exact h.1
  · intro maxHist l b
    refine ⟨evictBack_length_le _ _, ?_⟩
    rw [evictBack_eq_take]
    simp

lemma applyGasBlock_fee_none (x : SignetMetrics) (o : PollOutcome)
    (hsb : statusAfterBlock o = .Connected) (hfee : o.feeHistory = none) :
    (applyGasBlock x o).fee_history = none ∧
    (applyGasBlock x o).base_fee_per_gas = none ∧
    (applyGasBlock x o).next_base_fee_per_gas = none ∧
    (applyGasBlock x o).suggested_fees = none ∧
    (applyGasBlock x o).gas_utilization_ma_n = none ∧
    (applyGasBlock x o).gas_volatility_5m = none := by
  unfold applyGasBlock
  rw [hsb]
  cases hg : o.gasPrice <;> cases hm : o.maxPriorityFee <;>
    simp [ConnectionStatus.isConnected, hfee, hg, hm, clearFeeFields]

lemma applyGasBlock_prio (x : SignetMetrics) (o : PollOutcome)
    (hsb : statusAfterBlock o = .Connected) :
    (applyGasBlock x o).max_priority_fee_suggested = o.maxPriorityFee := by
  unfold applyGasBlock
  rw [hsb]
  cases hg : o.gasPrice <;> cases hf : o.feeHistory <;> cases hm : o.maxPriorityFee <;>
    simp [ConnectionStatus.isConnected, hg, hf, hm, clearFeeFields, applyFeeHistory]

lemma applyGasBlock_fee_some (x : SignetMetrics) (o : PollOutcome) (h : EthFeeHistoryResult)
    (hsb : statusAfterBlock o = .Connected) (hfee : o.feeHistory = some h) :
    (applyGasBlock x o).fee_history.isSome = true := by
  unfold applyGasBlock
  rw [hsb]
  cases hg : o.gasPrice <;> cases hm : o.maxPriorityFee <;>
    simp [ConnectionStatus.isConnected, hfee, hg, hm, applyFeeHistory]

-- ========================= C6 =========================

/-- C6: in a poll where the chain-id, block-number and gas-price calls succeed,
a fee-history failure leaves `fee_history`, `base_fee_per_gas`,
`next_base_fee_per_gas`, `suggested_fees`, `gas_utilization_ma_n` and
`gas_volatility_5m` all absent while the published status is still `Connected`;
a priority-fee failure clears exactly `max_priority_fee_suggested` (the field
always equals that call's outcome) with the status again `Connected`; and a
successful fee-history call stores a present `fee_history`. -/
theorem fee_failure_isolation (s : SignetMetrics) (o : PollOutcome) (c b g : ℕ)
    (hc : o.chainId = .ok c) (hb : o.blockNumber = .ok b) (hg : o.gasPrice = .ok g) :
    (o.feeHistory = none →
      (collectMetrics s o).fee_history = none ∧
      (collectMetrics s o).base_fee_per_gas = none ∧
      (collectMetrics s o).next_base_fee_per_gas = none ∧
      (collectMetrics s o).suggested_fees = none ∧
      (collectMetrics s o).gas_utilization_ma_n = none ∧
      (collectMetrics s o).gas_volatility_5m = none ∧
      (collectMetrics s o).connection_status = .Connected) ∧
    ((collectMetrics s o).max_priority_fee_suggested = o.maxPriorityFee ∧
      (collectMetrics s o).connection_status = .Connected) ∧
    (∀ h, o.feeHistory = some h → (collectMetrics s o).fee_history.isSome = true) := by
  have hsc : statusAfterChain o = .Connected := by simp [statusAfterChain, hc]
  have hsb : statusAfterBlock o = .Connected := by simp [statusAfterBlock, hsc, hb]
  have hsg : statusAfterGas o = .Connected := by simp [statusAfterGas, hsb, hg]
  have hstat : (collectMetrics s o).connection_status = .Connected :=
    (collect_status s o).trans hsg
  have hframe := finalizePoll_frame
    (applyGasBlock (applyHistory (applyBlockNum (applyChain s o) o) o) o) o
  refine ⟨fun hfee => ?_, ⟨?_, hstat⟩, fun h hfee => ?_⟩
  · have hgb := applyGasBlock_fee_none
      (applyHistory (applyBlockNum (applyChain s o) o) o) o hsb hfee
    refine ⟨?_, ?_, ?_, ?_, ?_, ?_, hstat⟩ <;> unfold collectMetrics
    · exact hframe.2.2.1.trans hgb.1
    · exact hframe.2.2.2.1.trans hgb.2.1
    · exact hframe.2.2.2.2.1.trans hgb.2.2.1
    · exact hframe.2.2.2.2.2.1.trans hgb.2.2.2.1
    · exact hframe.2.2.2.2.2.2.1.trans hgb.2.2.2.2.1
    · exact hframe.2.2.2.2.2.2.2.1.trans hgb.2.2.2.2.2
  · have hgp := applyGasBlock_prio
      (applyHistory (applyBlockNum (applyChain s o) o) o) o hsb
    show (collectMetrics s o).max_priority_fee_suggested = o.maxPriorityFee
    unfold collectMetrics
    exact hframe.2.2.2.2.2.2.2.2.trans hgp
  · have hgs := applyGasBlock_fee_some
      (applyHistory (applyBlockNum (applyChain s o) o) o) o h hsb hfee
    show (collectMetrics s o).fee_history.isSome = true
    unfold collectMetrics
    rw [hframe.2.2.1]
    exact hgs

/-- C6 witness: a concrete poll with chain id, block number and gas price
succeeding: a fee-history failure leaves the derived fee fields absent with
status `Connected` and the priority-fee field equal to the failed call's
outcome (`none`); a fee-history success stores a present sample. -/
theorem fee_failure_isolation_witness :
    (collectMetrics exState c6Outcome).fee_history = none ∧
    (collectMetrics exState c6Outcome).suggested_fees = none ∧
    (collectMetrics exState c6Outcome).connection_status = .Connected ∧
    (collectMetrics exState c6Outcome).max_priority_fee_suggested = none ∧
    (collectMetrics exState c6OutcomeB).fee_history.isSome = true := by
  have h := fee_failure_isolation exState c6Outcome 1 100 2 rfl rfl rfl
  have hB := fee_failure_isolation exState c6OutcomeB 1 100 2 rfl rfl rfl
  exact ⟨(h.1 rfl).1, (h.1 rfl).2.2.2.1, (h.1 rfl).2.2.2.2.2.2, h.2.1.1,
    hB.2.2 c6FeeHist rfl⟩

-- ========================= C7 =========================

lemma check_staleness_cases (now : ℕ) (s : SignetMetrics) :
    check_staleness now s = s ∨
    ((s.connection_status = .Connected ∨ s.connection_status = .Stale) ∧
      ∃ t, s.last_successful = some t ∧ now - t > STALE_AFTER ∧
        check_staleness now s = { s with connection_status := .Stale }) := by
  cases hs : s.connection_status
  case Connected =>
    cases hl : s.last_successful
    case none =>
      refine Or.inl ?_
      unfold check_staleness
      simp [hs, hl]
    case some t =>
      by_cases hgt : now - t > STALE_AFTER
      · refine Or.inr ⟨Or.inl rfl, t, rfl, hgt, ?_⟩
        unfold check_staleness
        simp [hs, hl, hgt]
      · refine Or.inl ?_
        unfold check_staleness
        simp [hs, hl, hgt]
  case Stale =>
    cases hl : s.last_successful
    case none =>
      refine Or.inl ?_
      unfold check_staleness
      simp [hs, hl]
    case some t =>
      by_cases hgt : now - t > STALE_AFTER
      · refine Or.inr ⟨Or.inr rfl, t, rfl, hgt, ?_⟩
        unfold check_staleness
        simp [hs, hl, hgt]
      · refine Or.inl ?_
        unfold check_staleness
        simp [hs, hl, hgt]
  case Disconnected =>
    refine Or.inl ?_
    unfold check_staleness
    simp [hs]
  case Error e =>
    refine Or.inl ?_
    unfold check_staleness
    simp [hs]

lemma check_staleness_fires (now : ℕ) (s : SignetMetrics) (t : ℕ)
    (hcs : s.connection_status = .Connected ∨ s.connection_status = .Stale)
    (hl : s.last_successful = some t) (hgt : now - t > STALE_AFTER) :
    check_staleness now s = { s with connection_status := .Stale } := by
  unfold check_staleness
  rcases hcs with h | h <;> simp only [h, hl] <;> simp [hgt]

/-- C7: `check_staleness` changes the status only when the current status is
`Connected` (a change from `Stale` is impossible since the only written value is
`Stale`), `last_successful` is set, and the elapsed time exceeds `STALE_AFTER`,
in which case the new status is `Stale`; a `Stale` status stays `Stale` (never
back to `Connected`), and `Disconnected` and `Error` statuses are never touched;
conversely, when the conditions hold from `Connected` or `Stale` the status does
become `Stale`. -/
theorem check_staleness_spec (s : SignetMetrics) (now : ℕ) :
    ((check_staleness now s).connection_status ≠ s.connection_status →
      s.connection_status = .Connected ∧
      ∃ t, s.last_successful = some t ∧ now - t > STALE_AFTER ∧
        (check_staleness now s).connection_status = .Stale) ∧
    (s.connection_status = .Stale → (check_staleness now s).connection_status = .Stale) ∧
    (s.connection_status = .Disconnected →
      (check_staleness now s).connection_status = .Disconnected) ∧
    (∀ e, s.connection_status = .Error e →
      (check_staleness now s).connection_status = .Error e) ∧
    (∀ t, s.connection_status = .Connected ∨ s.connection_status = .Stale →
      s.last_successful = some t → now - t > STALE_AFTER →
      (check_staleness now s).connection_status = .Stale) := by
  refine ⟨?_, ?_, ?_, ?_, ?_⟩
  · intro hne
    rcases check_staleness_cases now s with heq | ⟨hcs, t, hl, hgt, heq⟩
    · exact absurd (congrArg SignetMetrics.connection_status heq) hne
    · rcases hcs with hConn | hStale
      · exact ⟨hConn, t, hl, hgt, by rw [heq]⟩
      · exfalso
        apply hne
        rw [heq]
        exact hStale.symm
  · intro hStale
    rcases check_staleness_cases now s with heq | ⟨_, _, _, _, heq⟩
    · rw [heq]
      exact hStale
    · rw [heq]
  · intro hD
    rcases check_staleness_cases now s with heq | ⟨hcs, _, _, _, _⟩
    · rw [heq]
      exact hD
    · rw [hD] at hcs
      simp at hcs
  · intro e hE
    rcases check_staleness_cases now s with heq | ⟨hcs, _, _, _, _⟩
    · rw [heq]
      exact hE
    · rw [hE] at hcs
      simp at hcs
  · intro t hcs hl hgt
    rw [check_staleness_fires now s t hcs hl hgt]

/-- C7 witness: concrete states exercising every transition rule of
`check_staleness` at `now = 100` with threshold 20. -/
theorem check_staleness_spec_witness :
    (check_staleness 100 c7ConnState).connection_status = .Stale ∧
    (check_staleness 100 c7StaleState).connection_status = .Stale ∧
    (check_staleness 100 exState).connection_status = .Disconnected ∧
    (check_staleness 100 c7ErrState).connection_status = .Error "x" := by
  refine ⟨?_, ?_, ?_, ?_⟩
  · exact (check_staleness_spec c7ConnState 100).2.2.2.2 0 (Or.inl rfl) rfl (by decide)
  · exact (check_staleness_spec c7StaleState 100).2.1 rfl
  · exact (check_staleness_spec exState 100).2.2.1 rfl
  · exact (check_staleness_spec c7ErrState 100).2.2.2.1 "x" rfl

-- ========================= C8 =========================

/-- C8 counterexample: at priority fee `p = 2^53 + 1` (a valid u128 wei amount)
with known `nextBaseFeePerGas = 0`, the code computes
`(p as f64) * 2.0 as u128 = 2^54` (the cast to f64 rounds `p` down to `2^53`),
while the claimed formula `next + round(p × rampFactor)` gives `2^54 + 2`. -/
theorem suggested_max_fee_claim_counterexample :
    (mkTier (some 0) (some (2 ^ 53 + 1))).max_fee_per_gas ≠
      specSuggestedMaxFee 0 (2 ^ 53 + 1) := by
  have h1 : (mkTier (some 0) (some (2 ^ 53 + 1))).max_fee_per_gas = 2 ^ 54 := by decide
  have h2 : specSuggestedMaxFee 0 (2 ^ 53 + 1) = 2 ^ 54 + 2 := by
    unfold specSuggestedMaxFee SUGGESTION_RAMP_FACTOR_Q
    rw [show ((2 ^ 53 + 1 : ℕ) : ℚ) * 2 = ((2 ^ 54 + 2 : ℕ) : ℚ) by push_cast; ring,
      round_natCast, Int.toNat_natCast]
    omega
  rw [h1, h2]
  omega

/-- C8 (amended): whenever both the tier's priority fee `p` and the next base fee
are known, the tier's `max_priority_fee_per_gas` is exactly `p`, and its
`max_fee_per_gas` is the u128-saturating sum of the next base fee and the
f64-computed `p × 2.0` truncated to u128 — which coincides with the claimed
`next + round(p × rampFactor)` whenever `p < 2^53` (so the f64 cast is exact)
and the sum fits in u128; whenever the priority fee or the next base fee is
unknown the tier is the zero pair. -/
theorem suggested_max_fee_amended :
    (∀ p next, (mkTier (some next) (some p)).max_priority_fee_per_gas = p) ∧
    (∀ p next, p < 2 ^ 53 → next + 2 * p < 2 ^ 128 →
      (mkTier (some next) (some p)).max_fee_per_gas = specSuggestedMaxFee next p) ∧
    (∀ p, mkTier none (some p) = { max_fee_per_gas := 0, max_priority_fee_per_gas := 0 }) ∧
    (∀ next, mkTier (some next) none = { max_fee_per_gas := 0, max_priority_fee_per_gas := 0 }) ∧
    mkTier none none = { max_fee_per_gas := 0, max_priority_fee_per_gas := 0 } := by
  refine ⟨fun p next => rfl, fun p next hp hov => ?_, fun p => rfl, fun next => rfl, rfl⟩
  have hfl : fl53 p = p := by
    unfold fl53
    rw [if_pos hp]
  have hin : min (2 * fl53 p) U128_MAX = 2 * p := by
    rw [hfl]
    unfold U128_MAX
    omega
  have hspec : specSuggestedMaxFee next p = next + 2 * p := by
    unfold specSuggestedMaxFee SUGGESTION_RAMP_FACTOR_Q
    rw [show ((p : ℕ) : ℚ) * 2 = ((2 * p : ℕ) : ℚ) by push_cast; ring,
      round_natCast, Int.toNat_natCast]
  show min (next + min (2 * fl53 p) U128_MAX) U128_MAX = specSuggestedMaxFee next p
  rw [hin, hspec]
  unfold U128_MAX
  omega

/-- C8 witness: at `p = 3`, `next = 10` (exact regime) the code's tier is
`(10 + round(3 × 2.0), 3) = (16, 3)`, matching the spec formula. -/
theorem suggested_max_fee_amended_witness :
    (mkTier (some 10) (some 3)).max_fee_per_gas = specSuggestedMaxFee 10 3 ∧
    (mkTier (some 10) (some 3)).max_priority_fee_per_gas = 3 :=
  ⟨suggested_max_fee_amended.2.1 3 10 (by norm_num) (by norm_num),
    suggested_max_fee_amended.1 3 10⟩

-- ========================= C9 =========================

lemma pickPriority_idx (reward : List (List (Option ℕ))) (lastIdx : ℕ) :
    pickPriority reward lastIdx 10 =
      ((reward.get? lastIdx).bind (fun row => row.get? 0)).bind id ∧
    pickPriority reward lastIdx 25 =
      ((reward.get? lastIdx).bind (fun row => row.get? 1)).bind id ∧
    pickPriority reward lastIdx 50 =
      ((reward.get? lastIdx).bind (fun row => row.get? 2)).bind id ∧
    pickPriority reward lastIdx 75 =
      ((reward.get? lastIdx).bind (fun row => row.get? 3)).bind id ∧
    pickPriority reward lastIdx 90 =
      ((reward.get? lastIdx).bind (fun row => row.get? 4)).bind id := by
  have h10 : FEE_HISTORY_PERCENTILES.findIdx? (fun p => decide (|p - 10| < f64Eps)) = some 0 := by
    simp only [FEE_HISTORY_PERCENTILES, f64Eps, List.findIdx?]
    norm_num
  have h25 : FEE_HISTORY_PERCENTILES.findIdx? (fun p => decide (|p - 25| < f64Eps)) = some 1 := by
    simp only [FEE_HISTORY_PERCENTILES, f64Eps, List.findIdx?]
    norm_num
  have h50 : FEE_HISTORY_PERCENTILES.findIdx? (fun p => decide (|p - 50| < f64Eps)) = some 2 := by
    simp only [FEE_HISTORY_PERCENTILES, f64Eps, List.findIdx?]
    norm_num
  have h75 : FEE_HISTORY_PERCENTILES.findIdx? (fun p => decide (|p - 75| < f64Eps)) = some 3 := by
    simp only [FEE_HISTORY_PERCENTILES, f64Eps, List.findIdx?]
    norm_num
  have h90 : FEE_HISTORY_PERCENTILES.findIdx? (fun p => decide (|p - 90| < f64Eps)) = some 4 := by
    simp only [FEE_HISTORY_PERCENTILES, f64Eps, List.findIdx?]
    norm_num
  refine ⟨?_, ?_, ?_, ?_, ?_⟩
  · unfold pickPriority
    rw [h10]
  · unfold pickPriority
    rw [h25]
  · unfold pickPriority
    rw [h50]
  · unfold pickPriority
    rw [h75]
  · unfold pickPriority
    rw [h90]

/-- C9: the per-tier priority fee follows the source's fallback chains over the
row of index `feeLastIdx block_count` (the last block's reward row): safe tries
the 25th then 10th then 50th percentile, standard tries the 50th then falls back
to safe, fast tries the 75th then 90th then falls back to standard; each
percentile is read from the row position matching its index in
`FEE_HISTORY_PERCENTILES`; and when only the 50th-percentile value of the
consulted row is available, all three tiers resolve to it. -/
theorem fee_tier_fallback (reward : List (List (Option ℕ))) (lastIdx : ℕ) :
    (∀ v, pickPriority reward lastIdx 25 = some v → prioSafe reward lastIdx = some v) ∧
    (pickPriority reward lastIdx 25 = none → pickPriority reward lastIdx 10 = none →
      prioSafe reward lastIdx = pickPriority reward lastIdx 50) ∧
    (∀ v, pickPriority reward lastIdx 50 = some v → prioStd reward lastIdx = some v) ∧
    (pickPriority reward lastIdx 50 = none →
      prioStd reward lastIdx = prioSafe reward lastIdx) ∧
    (∀ v, pickPriority reward lastIdx 75 = some v → prioFast reward lastIdx = some v) ∧
    (pickPriority reward lastIdx 75 = none → pickPriority reward lastIdx 90 = none →
      prioFast reward lastIdx = prioStd reward lastIdx) ∧
    (∀ v, pickPriority reward lastIdx 10 = none → pickPriority reward lastIdx 25 = none →
      pickPriority reward lastIdx 75 = none → pickPriority reward lastIdx 90 = none →
      pickPriority reward lastIdx 50 = some v →
      prioSafe reward lastIdx = some v ∧ prioStd reward lastIdx = some v ∧
        prioFast reward lastIdx = some v) ∧
    (pickPriority reward lastIdx 50 =
      ((reward.get? lastIdx).bind (fun row => row.get? 2)).bind id) ∧
    (∀ n, 0 < n → feeLastIdx n = n - 1) ∧
    (∀ rows : List (List (Option ℕ)), rows.get? (feeLastIdx rows.length) = rows.getLast?) := by
  refine ⟨?_, ?_, ?_, ?_, ?_, ?_, ?_, (pickPriority_idx reward lastIdx).2.2.1, ?_, ?_⟩
  · intro v h
    unfold prioSafe
    rw [h]
    simp [Option.or]
  · intro h1 h2
    unfold prioSafe
    rw [h1, h2]
    simp [Option.or]
  · intro v h
    unfold prioStd
    rw [h]
    simp [Option.or]
  · intro h
    unfold prioStd
    rw [h]
    simp [Option.or]
  · intro v h
    unfold prioFast
    rw [h]
    simp [Option.or]
  · intro h1 h2
    unfold prioFast
    rw [h1, h2]
    simp [Option.or]
  · intro v h10 h25 h75 h90 h50
    have hsafe : prioSafe reward lastIdx = some v := by
      unfold prioSafe
      rw [h25, h10, h50]
      simp [Option.or]
    have hstd : prioStd reward lastIdx = some v := by
      unfold prioStd
      rw [h50]
      simp [Option.or]
    have hfast : prioFast reward lastIdx = some v := by
      unfold prioFast
      rw [h75, h90]
      simp [Option.or, hstd]
    exact ⟨hsafe, hstd, hfast⟩
  · intro n h
    simp [feeLastIdx, h]
  · intro rows
    cases rows with
    | nil => simp [feeLastIdx]
    | cons a t => simp [feeLastIdx, List.getLast?_eq_get?]

/-- C9 witness: a single reward row with only the 50th percentile populated
(value 7): all three tiers resolve to 7. -/
theorem fee_tier_fallback_witness :
    prioSafe c9Reward 0 = some 7 ∧ prioStd c9Reward 0 = some 7 ∧
      prioFast c9Reward 0 = some 7 := by
  have h := (fee_tier_fallback c9Reward 0).2.2.2.2.2.2.1 7
    (by simp [pickPriority_idx, c9Reward]) (by simp [pickPriority_idx, c9Reward])
    (by simp [pickPriority_idx, c9Reward]) (by simp [pickPriority_idx, c9Reward])
    (by simp [pickPriority_idx, c9Reward])
  exact h

-- ========================= C10 =========================

/-- C10: for a pool count endpoint, a received response with a non-2xx status, a
2xx response whose body is not valid JSON, or a 2xx JSON body with no recognised
container shape all yield `Ok(None)` — an unknown count with no recorded error —
and consequently, when all four sub-fetches complete without transport errors,
the snapshot is healthy with no error message regardless of how many counts are
unknown. -/
theorem count_fetch_soft_failures (r : CountResp) (j : JsonVal) (c : TxPoolClient)
    (now : ℕ) (o : PoolOutcome) :
    (r.success = false → fetch_count_from (.ok r) = .ok none) ∧
    (r.success = true → r.text = .ok none → fetch_count_from (.ok r) = .ok none) ∧
    (r.success = true → r.text = .ok (some j) → count_items j = none →
      fetch_count_from (.ok r) = .ok none) ∧
    ((fetch_count_from o.txCount).isOk = true →
      (fetch_count_from o.bundlesCount).isOk = true →
      (fetch_count_from o.ordersCount).isOk = true →
      (c.fetch_transactions o.txList).isOk = true →
      (c.fetch_metrics now o).healthy = true ∧ (c.fetch_metrics now o).error = none) := by
  refine ⟨?_, ?_, ?_, ?_⟩
  · intro h
    simp [fetch_count_from, h]
  · intro h1 h2
    simp [fetch_count_from, h1, h2]
  · intro h1 h2 h3
    simp [fetch_count_from, h1, h2, h3]
  · intro h1 h2 h3 h4
    rcases hv1 : fetch_count_from o.txCount with e1 | v1
    · rw [hv1] at h1
      simp [Except.isOk, Except.toBool] at h1
    rcases hv2 : fetch_count_from o.bundlesCount with e2 | v2
    · rw [hv2] at h2
      simp [Except.isOk, Except.toBool] at h2
    rcases hv3 : fetch_count_from o.ordersCount with e3 | v3
    · rw [hv3] at h3
      simp [Except.isOk, Except.toBool] at h3
    rcases hv4 : c.fetch_transactions o.txList with e4 | v4
    · rw [hv4] at h4
      simp [Except.isOk, Except.toBool] at h4
    constructor <;>
      simp [TxPoolClient.fetch_metrics, hv1, hv2, hv3, hv4, TxPoolMetrics.new]

/-- C10 witness: the three malformed-response shapes yield `Ok(None)`, and a pool
outcome consisting solely of received responses (one bad status, one bad JSON
body, one unrecognised shape, one good list) is healthy with no error. -/
theorem count_fetch_soft_failures_witness :
    fetch_count_from (.ok c10RespBadStatus) = .ok none ∧
    fetch_count_from (.ok c10RespBadJson) = .ok none ∧
    fetch_count_from (.ok c10RespBadShape) = .ok none ∧
    (c10Client.fetch_metrics 0 c10Outcome).healthy = true ∧
    (c10Client.fetch_metrics 0 c10Outcome).error = none := by
  have hA := count_fetch_soft_failures c10RespBadStatus JsonVal.other c10Client 0 c10Outcome
  have hB := count_fetch_soft_failures c10RespBadJson JsonVal.other c10Client 0 c10Outcome
  have hC := count_fetch_soft_failures c10RespBadShape JsonVal.other c10Client 0 c10Outcome
  have hAll := hA.2.2.2 (by decide) (by decide) (by decide) (by decide)
  exact ⟨hA.1 rfl, hB.2.1 rfl rfl, hC.2.2.1 rfl rfl (by decide), hAll.1, hAll.2⟩

-- ========================= C2 =========================

/-- C2 (amended): the health bit of a fetched tx-pool snapshot is true iff either
none of the four sub-fetches errored, or at least one count is known, or the
fetched transaction list is non-empty; the error field is set iff at least one
sub-fetch errored.  (The claim's "healthy iff no sub-fetch errored" is what the
counterexample below refutes.) -/
theorem fetch_metrics_health_characterization :
    ∀ (c : TxPoolClient) (now : ℕ) (o : PoolOutcome),
      ((c.fetch_metrics now o).healthy =
        (((fetch_count_from o.txCount).isOk && (fetch_count_from o.bundlesCount).isOk &&
          (fetch_count_from o.ordersCount).isOk && (c.fetch_transactions o.txList).isOk) ||
         ((c.fetch_metrics now o).transactions_cache.isSome ||
          (c.fetch_metrics now o).bundles_cache.isSome ||
          (c.fetch_metrics now o).signed_orders_cache.isSome ||
          !(c.fetch_metrics now o).transactions.isEmpty))) ∧
      ((c.fetch_metrics now o).error.isSome =
        !((fetch_count_from o.txCount).isOk && (fetch_count_from o.bundlesCount).isOk &&
          (fetch_count_from o.ordersCount).isOk && (c.fetch_transactions o.txList).isOk)) := by
  intro c now o
  cases h1 : fetch_count_from o.txCount <;>
    cases h2 : fetch_count_from o.bundlesCount <;>
      cases h3 : fetch_count_from o.ordersCount <;>
        cases h4 : c.fetch_transactions o.txList <;>
          simp [TxPoolClient.fetch_metrics, h1, h2, h3, h4, Except.isOk, Except.toBool,
            TxPoolMetrics.new, List.isEmpty_iff]

/-- C2 counterexample: with all three count sub-fetches erroring and a
transaction list of 2 rows, the snapshot has `healthy = true` (with the error
field set and the 2 rows retained), so "healthy = true iff none of the four
sub-fetches errored" and the scenario's "healthy = false" are both false of the
code. -/
theorem fetch_metrics_health_claim_counterexample :
    (c2Client.fetch_metrics 0 c2Outcome).healthy = true ∧
    (c2Client.fetch_metrics 0 c2Outcome).error.isSome = true ∧
    (c2Client.fetch_metrics 0 c2Outcome).transactions.length = 2 := by
  refine ⟨?_, ?_, ?_⟩ <;> decide

-- ========================= C3 =========================

/-- C3: in a poll with non-empty history (newest recorded `last`) and observed
head `latest > last`, the numbers for which a fetch is attempted are exactly
`min (latest - last) maxBackfill` many, namely `latest, latest-1, ...` in
descending order (the top of the gap range); with `latest ≤ last` no fetch is
attempted; with empty history exactly `[latest]` is fetched. -/
theorem fetchRange_spec :
    ∀ (maxB last latest : ℕ),
      (last < latest →
        (fetchRange maxB (some last) latest).length = min (latest - last) maxB ∧
        ∀ i, i < min (latest - last) maxB →
          (fetchRange maxB (some last) latest).get? i = some (latest - i)) ∧
      (latest ≤ last → fetchRange maxB (some last) latest = []) ∧
      fetchRange maxB none latest = [latest] := by
  intro maxB last latest
  refine ⟨fun h => ⟨?_, ?_⟩, fun h => ?_, rfl⟩
  · simp only [fetchRange, if_pos h, List.length_take, List.length_reverse,
      List.length_range']
    omega
  · intro i hi
    have hiB : i < maxB := lt_of_lt_of_le hi (min_le_right _ _)
    have hiK : i < latest - last := lt_of_lt_of_le hi (min_le_left _ _)
    simp only [fetchRange, if_pos h]
    rw [List.get?_take hiB, List.get?_reverse (by simpa using hiK),
      List.get?_range' _ _ (by simp; omega)]
    congr 1
    simp only [List.length_range']
    omega
  · simp only [fetchRange, if_neg (by omega : ¬ last < latest)]

/-- C3 witness: the scenario `last = 105`, `latest = 112`, `maxBackfill = 6`:
six numbers are fetched and the first is 112. -/
theorem fetchRange_spec_witness :
    (fetchRange 6 (some 105) 112).length = min (112 - 105) 6 ∧
    (fetchRange 6 (some 105) 112).get? 0 = some 112 := by
  have h := (fetchRange_spec 6 105 112).1 (by omega)
  exact ⟨h.1, by simpa using h.2 0 (by omega)⟩
